import Mathlib

/-!
Shallow embedding of the seismic estimation core of the `sismoalert`
repository (`src/utils/intensity-calculations.ts`,
`src/utils/seismic-calculations.ts`, `src/components/tsunami-warning.tsx`)
together with theorems settling the specification claims about it.

JavaScript numbers are modelled as real numbers; `Math.round` is modelled
as `⌊x + 1/2⌋` (JS rounds half-way cases toward +∞); `Math.log10` is
modelled by `Real.logb 10`.
-/

namespace SismoAlert

open Real

/- ## Regional classification (`seismic-calculations.ts`) -/

inductive MacroZone where
  | norte
  | centro
  | sur
  | austral
deriving DecidableEq

/-- `coeficientesRegionales` from `intensity-calculations.ts` (lines 19-24). -/
structure RegionalCoefficients where
  a : ℝ
  b : ℝ
  c : ℝ

def coeficientesRegionales : MacroZone → RegionalCoefficients
  | .norte => ⟨1.48, 0.48, 0.0065⟩
  | .centro => ⟨1.52, 0.52, 0.007⟩
  | .sur => ⟨1.55, 0.55, 0.0075⟩
  | .austral => ⟨1.5, 0.5, 0.0068⟩

/-- The eight soil categories of `intensity-calculations.ts` (line 10). -/
inductive SoilType where
  | roca
  | suelo_firme
  | suelo_blando
  | relleno
  | arenoso
  | arcilloso
  | aluvial
  | volcanico
deriving DecidableEq

/-- `factoresSuelo` from `intensity-calculations.ts` (lines 27-36). -/
def factoresSuelo : SoilType → ℝ
  | .roca => 1.0
  | .suelo_firme => 1.2
  | .suelo_blando => 1.6
  | .relleno => 2.0
  | .arenoso => 1.8
  | .arcilloso => 1.7
  | .aluvial => 1.9
  | .volcanico => 1.5

/-- `regionToMacroZone` from `seismic-calculations.ts` (lines 35-54). -/
def regionToMacroZone (regionCode : String) : MacroZone :=
  if regionCode ∈ ["15", "01", "02", "03"] then .norte
  else if regionCode ∈ ["04", "05", "13", "06", "07"] then .centro
  else if regionCode ∈ ["16", "08", "09", "14", "10"] then .sur
  else if regionCode ∈ ["11", "12"] then .austral
  else .centro

/- ## Intensity estimation (`intensity-calculations.ts`) -/

/-- JavaScript `Math.round`: half-way cases round toward positive infinity. -/
noncomputable def jsRound (x : ℝ) : ℤ := ⌊x + 1 / 2⌋

open Classical in
/-- The depth adjustment of `intensity-calculations.ts` line 62:
`profundidadKm < 30 ? 1.2 : profundidadKm < 70 ? 1.0 : 0.8`. -/
noncomputable def factorProfundidad (profundidadKm : ℝ) : ℝ :=
  if profundidadKm < 30 then 1.2 else if profundidadKm < 70 then 1.0 else 0.8

/-- `estimarIntensidadLocal` from `intensity-calculations.ts` (lines 47-70). -/
noncomputable def estimarIntensidadLocal (magnitud profundidadKm distanciaKm : ℝ)
    (tipoSuelo : SoilType) (regionUsuario : String) : ℤ :=
  let zona := regionToMacroZone regionUsuario
  let coef := coeficientesRegionales zona
  let intensidadBase :=
    coef.a * magnitud - coef.b * Real.logb 10 distanciaKm - coef.c * distanciaKm
  let conProfundidad := intensidadBase * factorProfundidad profundidadKm
  let conSuelo := conProfundidad * factoresSuelo tipoSuelo
  min 12 (max 1 (jsRound conSuelo))

/-- C1: for every finite magnitude, depth ≥ 0, distance > 0, soil type and
region code, `estimarIntensidadLocal` returns an integer in [1,12]. -/
theorem estimarIntensidadLocal_mem_Icc (magnitud profundidadKm distanciaKm : ℝ)
    (tipoSuelo : SoilType) (regionUsuario : String)
    (hd : 0 < distanciaKm) (hp : 0 ≤ profundidadKm) :
    1 ≤ estimarIntensidadLocal magnitud profundidadKm distanciaKm tipoSuelo regionUsuario ∧
      estimarIntensidadLocal magnitud profundidadKm distanciaKm tipoSuelo regionUsuario ≤ 12 := by
  simp only [estimarIntensidadLocal]
  omega

/-- Witness for C1 at magnitude 5, depth 30 km, distance 1 km, rock soil,
Metropolitana region. -/
theorem estimarIntensidadLocal_mem_Icc_witness :
    (0 : ℝ) < 1 ∧ (0 : ℝ) ≤ 30 ∧
      (1 ≤ estimarIntensidadLocal 5 30 1 .roca "13" ∧
        estimarIntensidadLocal 5 30 1 .roca "13" ≤ 12) :=
  ⟨one_pos, by norm_num,
    estimarIntensidadLocal_mem_Icc 5 30 1 .roca "13" one_pos (by norm_num)⟩

/- ## Helper lemmas for the intensity estimator -/

lemma coef_b_nonneg (z : MacroZone) : 0 ≤ (coeficientesRegionales z).b := by
  cases z <;> norm_num [coeficientesRegionales]

lemma coef_c_nonneg (z : MacroZone) : 0 ≤ (coeficientesRegionales z).c := by
  cases z <;> norm_num [coeficientesRegionales]

lemma factorProfundidad_nonneg (p : ℝ) : 0 ≤ factorProfundidad p := by
  unfold factorProfundidad
  split_ifs <;> norm_num

lemma factoresSuelo_nonneg (s : SoilType) : 0 ≤ factoresSuelo s := by
  cases s <;> norm_num [factoresSuelo]

/-- Rounding then clamping into [1,12] is monotone. -/
lemma clampRound_mono {x y : ℝ} (h : x ≤ y) :
    min 12 (max 1 (jsRound x)) ≤ min 12 (max 1 (jsRound y)) := by
  have hf : jsRound x ≤ jsRound y := Int.floor_le_floor (by linarith)
  omega

/-- C6: with magnitude, depth, soil and region fixed, the estimated
intensity is non-increasing in the distance over positive distances. -/
theorem estimarIntensidadLocal_antitone_dist (m p : ℝ) (s : SoilType) (r : String)
    (d1 d2 : ℝ) (h1 : 0 < d1) (h12 : d1 ≤ d2) :
    estimarIntensidadLocal m p d2 s r ≤ estimarIntensidadLocal m p d1 s r := by
  simp only [estimarIntensidadLocal]
  apply clampRound_mono
  apply mul_le_mul_of_nonneg_right _ (factoresSuelo_nonneg s)
  apply mul_le_mul_of_nonneg_right _ (factorProfundidad_nonneg p)
  have hL : Real.logb 10 d1 ≤ Real.logb 10 d2 :=
    Real.logb_le_logb_of_le (by norm_num) h1 h12
  have hb := mul_le_mul_of_nonneg_left hL
    (coef_b_nonneg (regionToMacroZone r))
  have hc := mul_le_mul_of_nonneg_left h12
    (coef_c_nonneg (regionToMacroZone r))
  linarith

/-- Witness for C6 at distances 1 km and 2 km. -/
theorem estimarIntensidadLocal_antitone_dist_witness :
    (0 : ℝ) < 1 ∧ (1 : ℝ) ≤ 2 ∧
      estimarIntensidadLocal 5 30 2 .roca "13" ≤ estimarIntensidadLocal 5 30 1 .roca "13" :=
  ⟨one_pos, one_le_two,
    estimarIntensidadLocal_antitone_dist 5 30 .roca "13" 1 2 one_pos one_le_two⟩

/- ## The floor-guarded variant demanded by the spec (claim C2) -/

open Classical in
/-- Modelled from the spec: the guarded intensity estimator the spec
mandates — a distance below the 0.1 km floor (in particular any distance
≤ 0) is replaced by the floor value before the logarithm is evaluated.
The code at `intensity-calculations.ts` line 59 has no such guard. -/
noncomputable def estimarIntensidadLocalConPiso (magnitud profundidadKm distanciaKm : ℝ)
    (tipoSuelo : SoilType) (regionUsuario : String) : ℤ :=
  let distanciaEfectiva := if distanciaKm < 0.1 then 0.1 else distanciaKm
  let zona := regionToMacroZone regionUsuario
  let coef := coeficientesRegionales zona
  let intensidadBase :=
    coef.a * magnitud - coef.b * Real.logb 10 distanciaEfectiva - coef.c * distanciaEfectiva
  let conProfundidad := intensidadBase * factorProfundidad profundidadKm
  let conSuelo := conProfundidad * factoresSuelo tipoSuelo
  min 12 (max 1 (jsRound conSuelo))

/-- The clamped rounding yields `z` when `x + 1/2` lies in `[z, z+1)`. -/
lemma clampRound_eq_of_bounds {x : ℝ} {z : ℤ} (h1 : 1 ≤ z) (h2 : z ≤ 12)
    (hlo : (z : ℝ) ≤ x + 1 / 2) (hhi : x + 1 / 2 < z + 1) :
    min 12 (max 1 (jsRound x)) = z := by
  have hf : ⌊x + 1 / 2⌋ = z := Int.floor_eq_iff.mpr ⟨hlo, hhi⟩
  simp only [jsRound, hf]
  omega

/-- C2: the code applies `log10` directly to the raw distance — no floor is
substituted. At distance 0 km (magnitude 4, depth 30 km, rock soil,
Metropolitana region) the unguarded code disagrees with the guarded
computation the spec mandates: 6 versus 7. -/
theorem estimarIntensidadLocal_no_floor_guard :
    estimarIntensidadLocal 4 30 0 .roca "13" = 6 ∧
      estimarIntensidadLocalConPiso 4 30 0 .roca "13" = 7 ∧
      estimarIntensidadLocal 4 30 0 .roca "13" ≠
        estimarIntensidadLocalConPiso 4 30 0 .roca "13" := by
  have hz : regionToMacroZone "13" = .centro := by decide
  have hfp : factorProfundidad (30 : ℝ) = 1.0 := by
    unfold factorProfundidad
    rw [if_neg (by norm_num), if_pos (by norm_num)]
  have h01 : Real.logb 10 (0.1 : ℝ) = -1 := by
    have h10 : (0.1 : ℝ) = (10 : ℝ)⁻¹ := by norm_num
    rw [h10, Real.logb_inv, Real.logb_self_eq_one (by norm_num)]
  have h01' : Real.logb 10 ((1 : ℝ) / 10) = -1 := by
    rw [one_div, Real.logb_inv, Real.logb_self_eq_one (by norm_num)]
  have hcode : estimarIntensidadLocal 4 30 0 .roca "13" = 6 := by
    simp only [estimarIntensidadLocal, hz, coeficientesRegionales, factoresSuelo, hfp]
    apply clampRound_eq_of_bounds <;> norm_num [Real.logb_zero]
  have hspec : estimarIntensidadLocalConPiso 4 30 0 .roca "13" = 7 := by
    simp only [estimarIntensidadLocalConPiso, hz, coeficientesRegionales, factoresSuelo, hfp]
    apply clampRound_eq_of_bounds <;> norm_num [h01, h01']
  exact ⟨hcode, hspec, by rw [hcode, hspec]; decide⟩

/- ## Wave arrival times (`seismic-calculations.ts`) -/

/-- `velocidadesRegionales` from `seismic-calculations.ts` (lines 23-32). -/
structure RegionalVelocities where
  ondaP : ℝ
  ondaS : ℝ

def velocidadesRegionales : MacroZone → RegionalVelocities
  | .norte => ⟨8.2, 4.2⟩
  | .centro => ⟨8.0, 4.0⟩
  | .sur => ⟨7.8, 3.8⟩
  | .austral => ⟨8.1, 4.1⟩

/-- `toRadians` from `seismic-calculations.ts` (lines 80-82). -/
noncomputable def toRadians (degrees : ℝ) : ℝ := degrees * (Real.pi / 180)

open Classical in
/-- JavaScript `Math.atan2 y x`, written out by quadrant. -/
noncomputable def atan2 (y x : ℝ) : ℝ :=
  if 0 < x then Real.arctan (y / x)
  else if x < 0 ∧ 0 ≤ y then Real.arctan (y / x) + Real.pi
  else if x < 0 ∧ y < 0 then Real.arctan (y / x) - Real.pi
  else if x = 0 ∧ 0 < y then Real.pi / 2
  else if x = 0 ∧ y < 0 then -(Real.pi / 2)
  else 0

/-- `calcularDistanciaHaversine` from `seismic-calculations.ts` (lines 64-75). -/
noncomputable def calcularDistanciaHaversine (lat1 lon1 lat2 lon2 : ℝ) : ℝ :=
  let R : ℝ := 6371
  let dLat := toRadians (lat2 - lat1)
  let dLon := toRadians (lon2 - lon1)
  let a := Real.sin (dLat / 2) * Real.sin (dLat / 2) +
    Real.cos (toRadians lat1) * Real.cos (toRadians lat2) *
      Real.sin (dLon / 2) * Real.sin (dLon / 2)
  let c := 2 * atan2 (Real.sqrt a) (Real.sqrt (1 - a))
  R * c

open Classical in
/-- `calcularFactorTopografico` from `seismic-calculations.ts` (lines 88-106). -/
noncomputable def calcularFactorTopografico (epicentroLat epicentroLon usuarioLat usuarioLon : ℝ) : ℝ :=
  let crossesAndes := |epicentroLon - usuarioLon| > 0.5
  if crossesAndes then 1.15 else 1.0

/-- `ArrivalTimeResult` from `seismic-calculations.ts` (lines 14-20). -/
structure ArrivalTimeResult where
  tiempoOndaP : ℝ
  tiempoOndaS : ℝ
  diferenciaSegundos : ℝ
  tiempoAlerta : ℝ
  distanciaKm : ℝ

/-- `calcularTiempoLlegada` from `seismic-calculations.ts` (lines 118-150). -/
noncomputable def calcularTiempoLlegada (epicentroLat epicentroLon usuarioLat usuarioLon
    profundidadKm : ℝ) (regionUsuario : String) : ArrivalTimeResult :=
  let zona := regionToMacroZone regionUsuario
  let v := velocidadesRegionales zona
  let distanciaKm := calcularDistanciaHaversine epicentroLat epicentroLon usuarioLat usuarioLon
  let factorTopografico := calcularFactorTopografico epicentroLat epicentroLon usuarioLat usuarioLon
  let distanciaTotal := Real.sqrt ((distanciaKm * factorTopografico) ^ 2 + profundidadKm ^ 2)
  let tiempoOndaP := distanciaTotal / v.ondaP
  let tiempoOndaS := distanciaTotal / v.ondaS
  { tiempoOndaP := tiempoOndaP
    tiempoOndaS := tiempoOndaS
    diferenciaSegundos := tiempoOndaS - tiempoOndaP
    tiempoAlerta := max 0 (tiempoOndaS - 10)
    distanciaKm := distanciaKm }

/- ## Helper lemmas for the arrival-time estimator -/

lemma velocidades_pos (z : MacroZone) :
    0 < (velocidadesRegionales z).ondaS ∧
      (velocidadesRegionales z).ondaS ≤ (velocidadesRegionales z).ondaP := by
  cases z <;> constructor <;> norm_num [velocidadesRegionales]

lemma atan2_nonneg {y x : ℝ} (hy : 0 ≤ y) (hx : 0 ≤ x) : 0 ≤ atan2 y x := by
  unfold atan2
  split_ifs with h1 h2 h3 h4 h5
  · have : 0 ≤ y / x := div_nonneg hy h1.le
    simpa using Real.arctan_strictMono.monotone this
  · linarith [h2.1]
  · linarith [h3.1]
  · positivity
  · linarith [h5.2]
  · exact le_refl 0

lemma haversine_core_nonneg (a : ℝ) :
    0 ≤ 6371 * (2 * atan2 (Real.sqrt a) (Real.sqrt (1 - a))) := by
  have h : 0 ≤ atan2 (Real.sqrt a) (Real.sqrt (1 - a)) :=
    atan2_nonneg (Real.sqrt_nonneg _) (Real.sqrt_nonneg _)
  positivity

lemma haversine_nonneg (lat1 lon1 lat2 lon2 : ℝ) :
    0 ≤ calcularDistanciaHaversine lat1 lon1 lat2 lon2 := by
  simp only [calcularDistanciaHaversine]
  exact haversine_core_nonneg _

lemma pWave_le_sWave_core (z : MacroZone) {D : ℝ} (hD : 0 ≤ D) :
    D / (velocidadesRegionales z).ondaP ≤ D / (velocidadesRegionales z).ondaS := by
  cases z <;> simp only [velocidadesRegionales] <;> gcongr <;> norm_num

/-- C5: for any coordinates, non-negative depth and any region code, the
P-wave arrival time never exceeds the S-wave arrival time. -/
theorem calcularTiempoLlegada_pWave_le_sWave (eLat eLon uLat uLon p : ℝ) (r : String)
    (hp : 0 ≤ p) :
    (calcularTiempoLlegada eLat eLon uLat uLon p r).tiempoOndaP ≤
      (calcularTiempoLlegada eLat eLon uLat uLon p r).tiempoOndaS := by
  simp only [calcularTiempoLlegada]
  exact pWave_le_sWave_core _ (Real.sqrt_nonneg _)

/-- Witness for C5 at the Valparaíso-to-Santiago scenario with depth 35 km. -/
theorem calcularTiempoLlegada_pWave_le_sWave_witness :
    (0 : ℝ) ≤ 35 ∧
      (calcularTiempoLlegada (-33.0) (-71.6) (-33.45) (-70.67) 35 "13").tiempoOndaP ≤
        (calcularTiempoLlegada (-33.0) (-71.6) (-33.45) (-70.67) 35 "13").tiempoOndaS :=
  ⟨by norm_num,
    calcularTiempoLlegada_pWave_le_sWave (-33.0) (-71.6) (-33.45) (-70.67) 35 "13" (by norm_num)⟩

/-- C10: for every real input, including negative depths, the five result
fields are non-negative, and the result at depth `-p` coincides with the
result at depth `p`, because the depth enters only squared. -/
theorem calcularTiempoLlegada_nonneg_and_even_in_depth (eLat eLon uLat uLon p : ℝ)
    (r : String) :
    0 ≤ (calcularTiempoLlegada eLat eLon uLat uLon p r).tiempoOndaP ∧
      0 ≤ (calcularTiempoLlegada eLat eLon uLat uLon p r).tiempoOndaS ∧
      0 ≤ (calcularTiempoLlegada eLat eLon uLat uLon p r).diferenciaSegundos ∧
      0 ≤ (calcularTiempoLlegada eLat eLon uLat uLon p r).tiempoAlerta ∧
      0 ≤ (calcularTiempoLlegada eLat eLon uLat uLon p r).distanciaKm ∧
      calcularTiempoLlegada eLat eLon uLat uLon (-p) r =
        calcularTiempoLlegada eLat eLon uLat uLon p r := by
  obtain ⟨hS, hSP⟩ := velocidades_pos (regionToMacroZone r)
  have hP : 0 < (velocidadesRegionales (regionToMacroZone r)).ondaP := lt_of_lt_of_le hS hSP
  refine ⟨?_, ?_, ?_, ?_, ?_, ?_⟩ <;> simp only [calcularTiempoLlegada]
  · exact div_nonneg (Real.sqrt_nonneg _) hP.le
  · exact div_nonneg (Real.sqrt_nonneg _) hS.le
  · exact sub_nonneg.mpr (pWave_le_sWave_core _ (Real.sqrt_nonneg _))
  · exact le_max_left 0 _
  · exact haversine_nonneg eLat eLon uLat uLon
  · rw [neg_sq]

/-- C3: the code performs no input validation on the depth: at depth
−10 km it silently returns the very same result as at depth 10 km rather
than an input-validation error. -/
theorem calcularTiempoLlegada_accepts_negative_depth :
    calcularTiempoLlegada 1 1 2 2 (-10) "13" = calcularTiempoLlegada 1 1 2 2 10 "13" := by
  simp only [calcularTiempoLlegada]
  rw [neg_sq]

/-- C9: `regionToMacroZone` is total — each of the 16 Chilean region codes
maps to its macro-zone and every other string maps to the central zone. -/
theorem regionToMacroZone_total :
    (regionToMacroZone "15" = .norte ∧ regionToMacroZone "01" = .norte ∧
      regionToMacroZone "02" = .norte ∧ regionToMacroZone "03" = .norte ∧
      regionToMacroZone "04" = .centro ∧ regionToMacroZone "05" = .centro ∧
      regionToMacroZone "13" = .centro ∧ regionToMacroZone "06" = .centro ∧
      regionToMacroZone "07" = .centro ∧ regionToMacroZone "16" = .sur ∧
      regionToMacroZone "08" = .sur ∧ regionToMacroZone "09" = .sur ∧
      regionToMacroZone "14" = .sur ∧ regionToMacroZone "10" = .sur ∧
      regionToMacroZone "11" = .austral ∧ regionToMacroZone "12" = .austral) ∧
    ∀ s : String,
      s ∉ (["15", "01", "02", "03", "04", "05", "13", "06", "07",
            "16", "08", "09", "14", "10", "11", "12"] : List String) →
        regionToMacroZone s = .centro := by
  refine ⟨by decide, ?_⟩
  intro s hs
  simp only [List.mem_cons, List.not_mem_nil, or_false, not_or] at hs
  obtain ⟨e15, e01, e02, e03, e04, e05, e13, e06, e07, e16, e08, e09, e14, e10, e11, e12⟩ := hs
  simp [regionToMacroZone, e15, e01, e02, e03, e04, e05, e13, e06, e07,
    e16, e08, e09, e14, e10, e11, e12]

/-- Witness for C9: an unknown region code falls back to the central zone. -/
theorem regionToMacroZone_total_witness : regionToMacroZone "ZZ" = .centro :=
  regionToMacroZone_total.2 "ZZ" (by decide)

/- ## Tsunami risk (`components/tsunami-warning.tsx`) -/

/-- The fields of `EarthquakeData` (from `lib/api`) that the tsunami
component reads. -/
structure EarthquakeData where
  latitude : ℝ
  longitude : ℝ
  magnitude : ℝ
  depth : ℝ

inductive TsunamiRisk where
  | none
  | low
  | moderate
  | high
  | extreme
deriving DecidableEq

open Classical in
/-- The risk assessment of `tsunami-warning.tsx` (lines 60-81): base risk
from magnitude/depth thresholds, then the subduction-zone escalation. -/
noncomputable def computeTsunamiRisk (earthquake : EarthquakeData) : TsunamiRisk :=
  let isSubductionZone := earthquake.longitude < -70.0
  let risk : TsunamiRisk :=
    if earthquake.magnitude ≥ 8.0 then .extreme
    else if earthquake.magnitude ≥ 7.5 then (if earthquake.depth < 60 then .high else .moderate)
    else if earthquake.magnitude ≥ 7.0 then (if earthquake.depth < 50 then .moderate else .low)
    else if earthquake.magnitude ≥ 6.5 ∧ earthquake.depth < 30 then .low
    else .none
  if isSubductionZone ∧ risk ≠ .none then
    if risk = .low then .moderate
    else if risk = .moderate then .high
    else if risk = .high then .extreme
    else risk
  else risk

/-- One-step severity escalation, as worded by the spec:
Low→Moderate→High→Extreme, Extreme stays Extreme. -/
def escalateOneLevel : TsunamiRisk → TsunamiRisk
  | .low => .moderate
  | .moderate => .high
  | .high => .extreme
  | .extreme => .extreme
  | .none => .none

open Classical in
/-- The tsunami risk exactly as the claim words it: threshold table for the
base risk, then escalation by exactly one level when the epicenter
longitude is < −70.0 and the risk is not `none`. -/
noncomputable def tsunamiRiskSpec (magnitude depth longitude : ℝ) : TsunamiRisk :=
  let base : TsunamiRisk :=
    if magnitude ≥ 8.0 then .extreme
    else if magnitude ≥ 7.5 then (if depth < 60 then .high else .moderate)
    else if magnitude ≥ 7.0 then (if depth < 50 then .moderate else .low)
    else if magnitude ≥ 6.5 ∧ depth < 30 then .low
    else .none
  if longitude < -70.0 ∧ base ≠ .none then escalateOneLevel base else base

/-- C4: the component's risk computation agrees with the claim's threshold
table and one-level subduction escalation for every earthquake. -/
theorem computeTsunamiRisk_eq_spec (e : EarthquakeData) :
    computeTsunamiRisk e = tsunamiRiskSpec e.magnitude e.depth e.longitude := by
  simp only [computeTsunamiRisk, tsunamiRiskSpec]
  split_ifs <;> simp_all [escalateOneLevel]

/- ## Nearest coastal point (`tsunami-warning.tsx`, lines 22-39 and 86-112) -/

structure CoastalPoint where
  name : String
  lat : ℝ
  lon : ℝ

instance : Inhabited CoastalPoint := ⟨⟨"", 0, 0⟩⟩

/-- `COASTAL_COORDINATES` from `tsunami-warning.tsx` (lines 22-39). -/
noncomputable def COASTAL_COORDINATES : List CoastalPoint :=
  [⟨"Arica", -18.4746, -70.3136⟩,
   ⟨"Iquique", -20.2307, -70.1356⟩,
   ⟨"Antofagasta", -23.6509, -70.4001⟩,
   ⟨"Caldera", -27.0672, -70.8262⟩,
   ⟨"Coquimbo", -29.9649, -71.3394⟩,
   ⟨"Valparaíso", -33.0472, -71.6127⟩,
   ⟨"San Antonio", -33.5928, -71.6068⟩,
   ⟨"Constitución", -35.3335, -72.421⟩,
   ⟨"Talcahuano", -36.7249, -73.1169⟩,
   ⟨"Lebu", -37.6083, -73.6542⟩,
   ⟨"Valdivia", -39.8142, -73.2459⟩,
   ⟨"Puerto Montt", -41.4693, -72.9424⟩,
   ⟨"Ancud", -41.8679, -73.8278⟩,
   ⟨"Chaitén", -42.9192, -72.7086⟩,
   ⟨"Puerto Aysén", -45.4033, -72.699⟩,
   ⟨"Punta Arenas", -53.1638, -70.9171⟩]

open Classical in
/-- The nearest-point scan of `tsunami-warning.tsx` (lines 87-102): start
from the first table entry and keep any strictly closer point. -/
noncomputable def nearestCoastalScan (lat lon : ℝ) : CoastalPoint × ℝ :=
  let first := COASTAL_COORDINATES.headI
  COASTAL_COORDINATES.foldl
    (fun acc point =>
      let distance := calcularDistanciaHaversine lat lon point.lat point.lon
      if distance < acc.2 then (point, distance) else acc)
    (first, calcularDistanciaHaversine lat lon first.lat first.lon)

structure TsunamiWarningState where
  tsunamiRisk : TsunamiRisk
  nearestCoastalPoint : Option String
  estimatedArrivalTime : Option ℝ

open Classical in
/-- The observable effect of the risk-assessment hook in
`tsunami-warning.tsx` (lines 50-112): the risk is always published; the
nearest coastal point and the arrival estimate are produced only when the
risk is not `none` (arrival = minDistance / 800 km/h, in minutes). -/
noncomputable def tsunamiWarningEffect (earthquake : EarthquakeData) : TsunamiWarningState :=
  let risk := computeTsunamiRisk earthquake
  if risk ≠ TsunamiRisk.none then
    let scan := nearestCoastalScan earthquake.latitude earthquake.longitude
    let tsunamiSpeed : ℝ := 800
    { tsunamiRisk := risk
      nearestCoastalPoint := some scan.1.name
      estimatedArrivalTime := some (scan.2 / tsunamiSpeed * 60) }
  else
    { tsunamiRisk := risk, nearestCoastalPoint := none, estimatedArrivalTime := none }

open Classical in
/-- The first strict minimizer of `f` over `b :: l`, scanning left to
right; mirrors the accumulator discipline of the component's loop. -/
noncomputable def firstMinFrom {α : Type} (f : α → ℝ) (b : α) : List α → α
  | [] => b
  | x :: xs => if f x < f b then firstMinFrom f x xs else firstMinFrom f b xs

lemma foldl_scan_eq_firstMinFrom {α : Type} (f : α → ℝ) :
    ∀ (l : List α) (b : α),
      l.foldl (fun acc point => if f point < acc.2 then (point, f point) else acc) (b, f b) =
        (firstMinFrom f b l, f (firstMinFrom f b l)) := by
  intro l
  induction l with
  | nil => intro b; simp [firstMinFrom]
  | cons x xs ih =>
      intro b
      simp only [List.foldl_cons, firstMinFrom]
      by_cases h : f x < f b
      · rw [if_pos h, if_pos h]
        exact ih x
      · rw [if_neg h, if_neg h]
        exact ih b

lemma firstMinFrom_min {α : Type} (f : α → ℝ) :
    ∀ (l : List α) (b : α), ∀ q ∈ b :: l, f (firstMinFrom f b l) ≤ f q := by
  intro l
  induction l with
  | nil =>
      intro b q hq
      simp only [List.mem_singleton] at hq
      simp [hq, firstMinFrom]
  | cons x xs ih =>
      intro b q hq
      simp only [firstMinFrom]
      rcases List.mem_cons.mp hq with hq | hq
      · by_cases h : f x < f b
        · rw [if_pos h, hq]
          exact le_of_lt (lt_of_le_of_lt (ih x x (List.mem_cons_self x xs)) h)
        · rw [if_neg h, hq]
          exact ih b b (List.mem_cons_self b xs)
      · rcases List.mem_cons.mp hq with hq | hq
        · by_cases h : f x < f b
          · rw [if_pos h, hq]
            exact ih x x (List.mem_cons_self x xs)
          · rw [if_neg h, hq]
            exact le_trans (ih b b (List.mem_cons_self b xs)) (le_of_not_lt h)
        · by_cases h : f x < f b
          · rw [if_pos h]
            exact ih x q (List.mem_cons_of_mem x hq)
          · rw [if_neg h]
            exact ih b q (List.mem_cons_of_mem b hq)

lemma firstMinFrom_first {α : Type} (f : α → ℝ) :
    ∀ (l : List α) (b : α), ∃ l₁ l₂, b :: l = l₁ ++ firstMinFrom f b l :: l₂ ∧
      ∀ q ∈ l₁, f (firstMinFrom f b l) < f q := by
  intro l
  induction l with
  | nil =>
      intro b
      exact ⟨[], [], by simp [firstMinFrom], by simp⟩
  | cons x xs ih =>
      intro b
      simp only [firstMinFrom]
      by_cases h : f x < f b
      · rw [if_pos h]
        obtain ⟨l₁, l₂, hsplit, hlt⟩ := ih x
        refine ⟨b :: l₁, l₂, by rw [List.cons_append, ← hsplit], ?_⟩
        intro q hq
        rcases List.mem_cons.mp hq with hq | hq
        · rw [hq]
          exact lt_of_le_of_lt (firstMinFrom_min f xs x x (List.mem_cons_self x xs)) h
        · exact hlt q hq
      · rw [if_neg h]
        obtain ⟨l₁, l₂, hsplit, hlt⟩ := ih b
        cases l₁ with
        | nil =>
            simp only [List.nil_append] at hsplit
            refine ⟨[], x :: xs, ?_, by simp⟩
            rw [List.nil_append, ← (List.cons.injEq _ _ _ _).mp hsplit |>.1]
        | cons c l₁ =>
            obtain ⟨hbc, hxs⟩ := (List.cons.injEq _ _ _ _).mp (by simpa using hsplit)
            refine ⟨b :: x :: l₁, l₂, ?_, ?_⟩
            · rw [List.cons_append, List.cons_append, ← hxs]
            · have hfb : f (firstMinFrom f b xs) < f b := by
                have hfc := hlt c (List.mem_cons_self c l₁)
                rw [← hbc] at hfc
                exact hfc
              intro q hq
              rcases List.mem_cons.mp hq with hq | hq
              · rw [hq]
                exact hfb
              · rcases List.mem_cons.mp hq with hq | hq
                · rw [hq]
                  exact lt_of_lt_of_le hfb (le_of_not_lt h)
                · exact hlt q (List.mem_cons_of_mem c hq)

/-- Distance from an epicenter to a coastal table entry. -/
@[reducible]
noncomputable def distFrom (lat lon : ℝ) (p : CoastalPoint) : ℝ :=
  calcularDistanciaHaversine lat lon p.lat p.lon

lemma scan_generic {α : Type} (f : α → ℝ) (x0 : α) (rest : List α) :
    (x0 :: rest).foldl (fun acc point => if f point < acc.2 then (point, f point) else acc)
      (x0, f x0) = (firstMinFrom f x0 rest, f (firstMinFrom f x0 rest)) := by
  rw [List.foldl_cons, if_neg (lt_irrefl (f x0))]
  exact foldl_scan_eq_firstMinFrom f rest x0

lemma nearestCoastalScan_spec (lat lon : ℝ) :
    ∃ l₁ l₂,
      COASTAL_COORDINATES = l₁ ++ (nearestCoastalScan lat lon).1 :: l₂ ∧
      (∀ q ∈ COASTAL_COORDINATES,
        distFrom lat lon (nearestCoastalScan lat lon).1 ≤ distFrom lat lon q) ∧
      (∀ q ∈ l₁,
        distFrom lat lon (nearestCoastalScan lat lon).1 < distFrom lat lon q) ∧
      (nearestCoastalScan lat lon).2 = distFrom lat lon (nearestCoastalScan lat lon).1 := by
  have hco : COASTAL_COORDINATES = COASTAL_COORDINATES.headI :: COASTAL_COORDINATES.tail := rfl
  have hscan : nearestCoastalScan lat lon =
      (firstMinFrom (distFrom lat lon) COASTAL_COORDINATES.headI COASTAL_COORDINATES.tail,
        distFrom lat lon
          (firstMinFrom (distFrom lat lon) COASTAL_COORDINATES.headI COASTAL_COORDINATES.tail)) := by
    simp only [nearestCoastalScan]
    conv_lhs => rw [hco]
    exact scan_generic (distFrom lat lon) COASTAL_COORDINATES.headI COASTAL_COORDINATES.tail
  obtain ⟨l₁, l₂, hsplit, hlt⟩ :=
    firstMinFrom_first (distFrom lat lon) COASTAL_COORDINATES.tail COASTAL_COORDINATES.headI
  refine ⟨l₁, l₂, ?_, ?_, ?_, by rw [hscan]⟩
  · rw [hscan]
    conv_lhs => rw [hco]
    exact hsplit
  · intro q hq
    rw [hscan]
    rw [hco] at hq
    exact firstMinFrom_min (distFrom lat lon) COASTAL_COORDINATES.tail
      COASTAL_COORDINATES.headI q hq
  · intro q hq
    rw [hscan]
    exact hlt q hq

/-- C8: whenever the computed risk is not `none`, the published coastal
point is the first table entry attaining the minimum haversine distance to
the epicenter (ties broken by table order) and the published arrival
estimate is that minimum distance divided by 800 km/h, in minutes;
whenever the risk is `none`, no coastal point and no arrival estimate are
produced. -/
theorem tsunamiWarning_nearest_and_arrival (e : EarthquakeData) :
    ∃ p l₁ l₂,
      COASTAL_COORDINATES = l₁ ++ p :: l₂ ∧
      (∀ q ∈ COASTAL_COORDINATES,
        distFrom e.latitude e.longitude p ≤ distFrom e.latitude e.longitude q) ∧
      (∀ q ∈ l₁, distFrom e.latitude e.longitude p < distFrom e.latitude e.longitude q) ∧
      tsunamiWarningEffect e =
        (if computeTsunamiRisk e = .none then
          { tsunamiRisk := .none, nearestCoastalPoint := Option.none,
            estimatedArrivalTime := Option.none }
        else
          { tsunamiRisk := computeTsunamiRisk e,
            nearestCoastalPoint := some p.name,
            estimatedArrivalTime :=
              some (distFrom e.latitude e.longitude p / 800 * 60) }) := by
  obtain ⟨l₁, l₂, hsplit, hmin, hfirst, hdist⟩ := nearestCoastalScan_spec e.latitude e.longitude
  refine ⟨(nearestCoastalScan e.latitude e.longitude).1, l₁, l₂, hsplit, hmin, hfirst, ?_⟩
  by_cases h : computeTsunamiRisk e = TsunamiRisk.none
  · rw [if_pos h]
    simp only [tsunamiWarningEffect]
    rw [if_neg (not_not_intro h), h]
  · rw [if_neg h]
    simp only [tsunamiWarningEffect]
    rw [if_pos h, hdist]

/-- Witness for C8: for a magnitude-9 event off the coast a coastal point
is published. -/
theorem tsunamiWarning_nearest_and_arrival_witness :
    (tsunamiWarningEffect ⟨-30, -72, 9, 20⟩).nearestCoastalPoint.isSome = true := by
  have hrisk : computeTsunamiRisk ⟨-30, -72, 9, 20⟩ = TsunamiRisk.extreme := by
    simp only [computeTsunamiRisk]
    norm_num
    intro hne
    simp
  obtain ⟨p, l₁, l₂, hsplit, hmin, hfirst, heff⟩ :=
    tsunamiWarning_nearest_and_arrival ⟨-30, -72, 9, 20⟩
  rw [heff, if_neg (by simp [hrisk])]
  rfl

/- ## Recommendations (`intensity-calculations.ts`, lines 105-179) -/

inductive TipoConstruccion where
  | hormigon
  | albanileria
  | madera
  | adobe
deriving DecidableEq

/-- `recomendacionesBase` from `intensity-calculations.ts` (lines 110-138):
tiers for intensities I-III, IV-V, VI-VII and VIII+. -/
def recomendacionesBase : List (List String) :=
  [["No se requieren medidas especiales",
    "Mantén la calma, es un sismo de baja intensidad"],
   ["Aléjate de ventanas y objetos que puedan caer",
    "Ubícate bajo una mesa resistente o junto a un muro estructural",
    "Mantén la calma y espera a que termine el movimiento"],
   ["Protege tu cabeza y cuello con tus brazos",
    "Ubícate bajo una mesa resistente o junto a un muro estructural",
    "Aléjate de ventanas, espejos y muebles altos",
    "No uses ascensores",
    "Corta suministros de gas y electricidad si es posible"],
   ["Protege tu cabeza y cuello con tus brazos",
    "Ubícate bajo una mesa resistente o junto a un muro estructural",
    "Aléjate de ventanas, espejos y muebles altos",
    "No uses ascensores",
    "Corta suministros de gas y electricidad si es posible",
    "Prepárate para evacuar después del sismo",
    "Ten cuidado con réplicas",
    "Sigue las instrucciones de las autoridades"]]

/-- `recomendacionesEspecificas` from `intensity-calculations.ts`
(lines 141-159). -/
def recomendacionesEspecificas : TipoConstruccion → List String
  | .hormigon =>
      ["Las estructuras de hormigón armado suelen ser resistentes a sismos moderados",
       "Aléjate de elementos no estructurales como cielos falsos o luminarias"]
  | .albanileria =>
      ["Aléjate de muros y tabiques que puedan agrietarse",
       "Busca protección bajo marcos de puertas reforzados"]
  | .madera =>
      ["Las estructuras de madera suelen ser flexibles ante sismos",
       "Aléjate de chimeneas o elementos pesados que puedan desprenderse"]
  | .adobe =>
      ["Las construcciones de adobe son muy vulnerables a sismos",
       "Evacúa al exterior si es posible hacerlo de forma segura",
       "Si no puedes evacuar, ubícate en una esquina junto a muros cortos"]

/-- `getRecomendacionesIntensidad` from `intensity-calculations.ts`
(lines 105-179), with the intensity as an integer. -/
def getRecomendacionesIntensidad (intensidad : ℤ)
    (tipoConstruccion : TipoConstruccion) : List String :=
  let recomendaciones :=
    if intensidad ≤ 3 then recomendacionesBase.getD 0 []
    else if intensidad ≤ 5 then recomendacionesBase.getD 1 []
    else if intensidad ≤ 7 then recomendacionesBase.getD 2 []
    else recomendacionesBase.getD 3 []
  if 5 ≤ intensidad then recomendaciones ++ recomendacionesEspecificas tipoConstruccion
  else recomendaciones

lemma getRec_low (i : ℤ) (t : TipoConstruccion) (h : i ≤ 3) :
    getRecomendacionesIntensidad i t = recomendacionesBase.getD 0 [] := by
  simp only [getRecomendacionesIntensidad]
  rw [if_neg (show ¬(5 : ℤ) ≤ i by omega), if_pos h]

lemma getRec_four (t : TipoConstruccion) :
    getRecomendacionesIntensidad 4 t = recomendacionesBase.getD 1 [] := by
  simp only [getRecomendacionesIntensidad]
  rw [if_neg (show ¬(5 : ℤ) ≤ 4 by omega), if_neg (show ¬(4 : ℤ) ≤ 3 by omega),
    if_pos (show (4 : ℤ) ≤ 5 by omega)]

lemma getRec_five (t : TipoConstruccion) :
    getRecomendacionesIntensidad 5 t =
      recomendacionesBase.getD 1 [] ++ recomendacionesEspecificas t := by
  simp only [getRecomendacionesIntensidad]
  rw [if_pos (show (5 : ℤ) ≤ 5 by omega), if_neg (show ¬(5 : ℤ) ≤ 3 by omega),
    if_pos (show (5 : ℤ) ≤ 5 by omega)]

lemma getRec_mid (i : ℤ) (t : TipoConstruccion) (h : 6 ≤ i) (h' : i ≤ 7) :
    getRecomendacionesIntensidad i t =
      recomendacionesBase.getD 2 [] ++ recomendacionesEspecificas t := by
  simp only [getRecomendacionesIntensidad]
  rw [if_pos (show (5 : ℤ) ≤ i by omega), if_neg (show ¬i ≤ 3 by omega),
    if_neg (show ¬i ≤ 5 by omega), if_pos h']

lemma getRec_high (i : ℤ) (t : TipoConstruccion) (h : 8 ≤ i) :
    getRecomendacionesIntensidad i t =
      recomendacionesBase.getD 3 [] ++ recomendacionesEspecificas t := by
  simp only [getRecomendacionesIntensidad]
  rw [if_pos (show (5 : ℤ) ≤ i by omega), if_neg (show ¬i ≤ 3 by omega),
    if_neg (show ¬i ≤ 5 by omega), if_neg (show ¬i ≤ 7 by omega)]

/-- C7 counterexample: the basic advice of the lowest band is not contained
in the next band's output — the wording is replaced, not extended. -/
theorem getRecomendaciones_not_superset :
    "No se requieren medidas especiales" ∈
        getRecomendacionesIntensidad 1 .hormigon ∧
      "No se requieren medidas especiales" ∉
        getRecomendacionesIntensidad 4 .hormigon := by
  decide

/-- C7 (amended): for a fixed construction type, the list length strictly
increases from band to band across [1,3], [4,5], [6,7] and [8,12]; the
content-superset property holds only from band [6,7] to band [8,12]. -/
theorem getRecomendaciones_length_mono (t : TipoConstruccion) (i1 i2 i3 i4 : ℤ)
    (h1 : 1 ≤ i1) (h1' : i1 ≤ 3) (h2 : 4 ≤ i2) (h2' : i2 ≤ 5)
    (h3 : 6 ≤ i3) (h3' : i3 ≤ 7) (h4 : 8 ≤ i4) (h4' : i4 ≤ 12) :
    (getRecomendacionesIntensidad i1 t).length <
        (getRecomendacionesIntensidad i2 t).length ∧
      (getRecomendacionesIntensidad i2 t).length <
        (getRecomendacionesIntensidad i3 t).length ∧
      (getRecomendacionesIntensidad i3 t).length <
        (getRecomendacionesIntensidad i4 t).length ∧
      ∀ x ∈ getRecomendacionesIntensidad i3 t,
        x ∈ getRecomendacionesIntensidad i4 t := by
  rw [getRec_low i1 t h1', getRec_mid i3 t h3 h3', getRec_high i4 t h4]
  have hsub : ∀ x ∈ recomendacionesBase.getD 2 [], x ∈ recomendacionesBase.getD 3 [] := by
    decide
  have hi2 : i2 = 4 ∨ i2 = 5 := by omega
  have hmain : ∀ x ∈ recomendacionesBase.getD 2 [] ++ recomendacionesEspecificas t,
      x ∈ recomendacionesBase.getD 3 [] ++ recomendacionesEspecificas t := by
    intro x hx
    rcases List.mem_append.mp hx with hx | hx
    · exact List.mem_append_left _ (hsub x hx)
    · exact List.mem_append_right _ hx
  rcases hi2 with hi2 | hi2 <;> rw [hi2]
  · rw [getRec_four t]
    refine ⟨by decide, ?_, ?_, hmain⟩ <;> cases t <;> decide
  · rw [getRec_five t]
    refine ⟨?_, ?_, ?_, hmain⟩ <;> cases t <;> decide

/-- Witness for the amended C7 at intensities 1, 4, 6, 8 with concrete
construction type. -/
theorem getRecomendaciones_length_mono_witness :
    (1 : ℤ) ≤ 3 ∧ (4 : ℤ) ≤ 5 ∧ (6 : ℤ) ≤ 7 ∧ (8 : ℤ) ≤ 12 ∧
      ((getRecomendacionesIntensidad 1 .hormigon).length <
          (getRecomendacionesIntensidad 4 .hormigon).length ∧
        (getRecomendacionesIntensidad 4 .hormigon).length <
          (getRecomendacionesIntensidad 6 .hormigon).length ∧
        (getRecomendacionesIntensidad 6 .hormigon).length <
          (getRecomendacionesIntensidad 8 .hormigon).length ∧
        ∀ x ∈ getRecomendacionesIntensidad 6 .hormigon,
          x ∈ getRecomendacionesIntensidad 8 .hormigon) :=
  ⟨by decide, by decide, by decide, by decide,
    getRecomendaciones_length_mono .hormigon 1 4 6 8 (by decide) (by decide) (by decide)
      (by decide) (by decide) (by decide) (by decide) (by decide)⟩

end SismoAlert
